import Mathlib

/-!
Verification of the KPI aggregation and tiered-growth engine of the
injini-mel-dashboard repository (`src/logic_engine.py`), checked against
its natural-language specification.

Modelling conventions:
* Python real arithmetic is modelled over `ℚ`.
* `round(x, 1)` is modelled by `round1` (round half to even, as Python's
  built-in `round`); `int(x)` by `pyInt` (truncation toward zero).
* A pandas DataFrame of monthly report records is a `List Record` in
  arrival order; pandas `groupby` preserves arrival order inside each
  group, which `List.filter` reproduces.  `groupby` sorts the group keys
  themselves; key order is irrelevant to every aggregate proved here
  (sums, medians, memberships), and the model iterates keys in
  `List.dedup` order.
* `datetime.min`, the sentinel for unparsable reporting-month labels, is
  modelled as `none : Option Date`.
-/

namespace Injini

/-! ### Month parser (`parse_reporting_month`, logic_engine.py lines 7-22) -/

/-- A parsed reporting month as a (year, month) pair.  The code only ever
builds first-of-month datetimes, so the day component is omitted. -/
abbrev Date := Nat × Nat

/-- The `\w` character class of Python's `re` module (ASCII range). -/
def isWordChar (c : Char) : Bool := c.isAlphanum || c = '_'

/-- The `\s` character class of Python's `re` module (ASCII range). -/
def isSpaceChar (c : Char) : Bool :=
  c = ' ' || c = '\t' || c = '\n' || c = '\r' || c = '\x0b' || c = '\x0c'

/-- Match of the regex `(\w+)\s+(\d{4})` anchored at the head of `cs`,
returning the two capture groups.  Because `\w` and `\s` are disjoint
classes and `\d ⊆ \w`, backtracking can never extend a failed greedy
attempt, so the anchored match is exactly: a maximal nonempty word run,
then a maximal nonempty whitespace run, then four digit characters. -/
def matchAt (cs : List Char) : Option (List Char × List Char) :=
  let ws := cs.span isWordChar
  if ws.1.isEmpty then none else
  let sps := ws.2.span isSpaceChar
  if sps.1.isEmpty then none else
  let d := sps.2.take 4
  if d.length = 4 && d.all Char.isDigit then some (ws.1, d) else none

/-- `re.search(r'(\w+)\s+(\d{4})', ...)`: try the anchored match at every
position, leftmost first. -/
def searchMonthYear : List Char → Option (List Char × List Char)
  | [] => none
  | c :: cs =>
    match matchAt (c :: cs) with
    | some r => some r
    | none => searchMonthYear cs

/-- The twelve English month names, lowercased.  `strptime`'s `%B`
directive matches a full month name case-insensitively. -/
def monthNames : List String :=
  ["january", "february", "march", "april", "may", "june", "july",
   "august", "september", "october", "november", "december"]

/-- The 1-based month number of a captured word, or `none` when
`strptime('%B %Y')` would raise `ValueError` on it. -/
def monthIndex (w : List Char) : Option Nat :=
  match monthNames.findIdx? (fun s => s = String.mk (w.map Char.toLower)) with
  | some i => some (i + 1)
  | none => none

/-- Numeric value of a run of decimal digit characters. -/
def digitsToNat (ds : List Char) : Nat :=
  ds.foldl (fun acc c => acc * 10 + (c.toNat - 48)) 0

/-- `parse_reporting_month` (logic_engine.py 7-22).  Parses a label such
as `'Report 6 - September 2023'` to `some (2023, 9)`.  Returns `none`
(the `datetime.min` sentinel) when the label is the literal `'Unknown'`,
when `re.search` finds no `(\w+)\s+(\d{4})` match, when the captured word
is not a month name (`strptime` raises `ValueError`, caught by the code),
or when the captured year is 0000 (`datetime`'s MINYEAR is 1, so
`strptime` likewise raises).  The code's non-string branch is outside the
model, where labels are always strings. -/
def parse_reporting_month (month_str : String) : Option Date :=
  if month_str = "Unknown" then none
  else
    match searchMonthYear month_str.toList with
    | none => none
    | some (w, d) =>
      match monthIndex w with
      | none => none
      | some m =>
        if 1 ≤ digitsToNat d then some (digitsToNat d, m) else none

/-! ### Numeric primitives -/

/-- Floor of a rational (the `Int.ediv` of numerator by denominator is the
floor since denominators are positive). -/
def ratFloor (q : ℚ) : ℤ := q.num.ediv q.den

/-- Round to the nearest integer, ties to the even integer: the behaviour
of Python's built-in `round` on exact values. -/
def roundHalfEven (q : ℚ) : ℤ :=
  let f := ratFloor q
  let r := q - f
  if r < 1/2 then f
  else if 1/2 < r then f + 1
  else if f % 2 = 0 then f else f + 1

/-- Python `round(x, 1)`. -/
def round1 (q : ℚ) : ℚ := (roundHalfEven (q * 10) : ℚ) / 10

/-- Python `int(x)`: truncation toward zero. -/
def pyInt (q : ℚ) : ℤ := if 0 ≤ q then ratFloor q else -(ratFloor (-q))

/-- pandas `Series.mean()`: sum divided by length (never applied to an
empty series by the engine). -/
def mean (l : List ℚ) : ℚ := l.sum / l.length

/-- `series.iloc[-k:]`: the last `k` elements. -/
def lastN (l : List ℚ) (k : Nat) : List ℚ := l.drop (l.length - k)

/-- Python `statistics.median`: middle element of the sorted values, or
the mean of the two middle elements for even length.  (The engine only
calls it on nonempty lists; the `getD` default is never read.) -/
def pyMedian (l : List ℚ) : ℚ :=
  let s := List.insertionSort (· ≤ ·) l
  if l.length % 2 = 1 then s.getD (l.length / 2) 0
  else (s.getD (l.length / 2 - 1) 0 + s.getD (l.length / 2) 0) / 2

/-! ### Tiered growth calculators (logic_engine.py lines 29-88) -/

/-- Result of a tiered growth calculation: a numeric percentage or the
string `"Insufficient Data"`. -/
inductive Growth where
  | num (value : ℚ)
  | insufficientData
  deriving DecidableEq, Repr

/-- The (baseline, recent) window pair selected by the number of data
points; this selection code appears verbatim in both
`_tiered_sales_growth` (lines 38-55) and `_tiered_profit_growth`
(lines 70-83), so it is factored out once here.  Only reached with
`6 ≤ n` in the source. -/
def growthWindow (series : List ℚ) : ℚ × ℚ :=
  let n := series.length
  if n ≤ 11 then
    (mean (series.take 3), mean (lastN series 3))
  else if n ≤ 17 then
    (mean (series.take 6), mean (lastN series 6))
  else if n ≤ 23 then
    (mean (series.take 12),
      if 0 < n - 12 then (series.drop 12).sum / ((n - 12 : Nat) : ℚ) * 12 else 0)
  else
    (mean (series.take 12), mean (lastN series 12))

/-- `_tiered_sales_growth` (logic_engine.py 29-59). -/
def tiered_sales_growth (series : List ℚ) : Growth :=
  if series.length < 6 then .insufficientData
  else
    let fl := growthWindow series
    if fl.1 = 0 then .num 0
    else .num (round1 ((fl.2 - fl.1) / fl.1 * 100))

/-- `_tiered_profit_growth` (logic_engine.py 62-88): same tiers, but the
denominator is the absolute value of the baseline. -/
def tiered_profit_growth (series : List ℚ) : Growth :=
  if series.length < 6 then .insufficientData
  else
    let fl := growthWindow series
    if |fl.1| = 0 then .num 0
    else .num (round1 ((fl.2 - fl.1) / |fl.1| * 100))

/-! ### Records and grouping -/

/-- One normalized monthly report record: the DataFrame columns read by
the computations verified here.  All numeric fields are pre-coerced to
numbers by the ingestion layer (data_fetcher.py); columns not consumed by
any verified claim (schools, demographics, grants, ...) are omitted. -/
structure Record where
  cohort : String
  business : String
  /-- the 'Reporting Month' column -/
  label : String
  /-- 'Monthly Sales (R)' -/
  sales : ℚ
  /-- 'Monthly Net Profit' -/
  profit : ℚ
  /-- 'Total Jobs' -/
  totalJobs : ℚ
  /-- 'Total Subscribers Students' -/
  subsStudents : ℚ
  /-- 'Total Subscribers Teachers' -/
  subsTeachers : ℚ
  /-- 'New Subscribers Students' -/
  newSubsStudents : ℚ
  /-- 'New Subscribers Teachers' -/
  newSubsTeachers : ℚ
  deriving DecidableEq, Repr

/-- The derived 'Date' column:
`df['Reporting Month'].apply(parse_reporting_month)` (line 108). -/
def dateKey (r : Record) : Option Date := parse_reporting_month r.label

/-- `datetime` ordering, with the `datetime.min` sentinel (`none`)
sorting before every real date. -/
def dateLE (a b : Option Date) : Bool :=
  match a, b with
  | none, _ => true
  | some _, none => false
  | some d1, some d2 => d1.1 < d2.1 || (d1.1 = d2.1 && d1.2 ≤ d2.2)

/-- `group.sort_values('Date')` (line 140).  Modelled with a stable
insertion sort; the source's pandas default is an unstable quicksort,
so on inputs with duplicate dates inside one venture the tie order is
implementation-defined there — no verified claim depends on tie order. -/
def sortByDate (rs : List Record) : List Record :=
  List.insertionSort (fun a b => dateLE (dateKey a) (dateKey b) = true) rs

/-- The distinct (cohort, business) keys of
`df.groupby(['Cohort', 'Business Name'])`. -/
def ventureKeys (df : List Record) : List (String × String) :=
  (df.map fun r => (r.cohort, r.business)).dedup

/-- The rows of one venture, in arrival order. -/
def ventureGroup (df : List Record) (k : String × String) : List Record :=
  df.filter fun r => r.cohort = k.1 && r.business = k.2

/-- All venture groups of the DataFrame. -/
def ventureGroups (df : List Record) : List (List Record) :=
  (ventureKeys df).map (ventureGroup df)

/-! ### Venture-level computations (the per-group body of
`calculate_kpis`, logic_engine.py lines 138-261) -/

/-- `float(group['Monthly Sales (R)'].sum())` (line 144). -/
def venture_total_sales (group : List Record) : ℚ := (group.map (·.sales)).sum

/-- `sales_series` of the date-sorted group (lines 140, 147). -/
def salesSeries (group : List Record) : List ℚ := (sortByDate group).map (·.sales)

/-- `profit_series` of the date-sorted group (lines 140, 148). -/
def profitSeries (group : List Record) : List ℚ := (sortByDate group).map (·.profit)

/-- Net job creation (lines 158-167): `int(last_jobs - first_jobs)` when
the venture has at least 2 records, else 0. -/
def venture_net_jobs (group : List Record) : ℤ :=
  let g := sortByDate group
  if 2 ≤ g.length then
    pyInt (((g.getLast?.map (·.totalJobs)).getD 0) - ((g.head?.map (·.totalJobs)).getD 0))
  else 0

/-- `float(group.iloc[-1]['Total Jobs']) if n > 0 else 0` (line 170):
the venture's latest (last-by-date) total-jobs snapshot. -/
def venture_current_total_jobs (group : List Record) : ℚ :=
  (((sortByDate group).getLast?.map (·.totalJobs)).getD 0)

/-- `venture_total_subscribers` (lines 193-195): latest students plus
latest teachers, both taken from the last date-sorted row. -/
def venture_latest_subscribers (group : List Record) : ℚ :=
  ((((sortByDate group).getLast?.map (·.subsStudents)).getD 0) +
   (((sortByDate group).getLast?.map (·.subsTeachers)).getD 0))

/-- `venture_new_subs` (line 197): a flow total over all records. -/
def venture_new_subs (group : List Record) : ℚ :=
  (group.map (·.newSubsStudents)).sum + (group.map (·.newSubsTeachers)).sum

/-- The red-flag list of one venture (lines 226-235). -/
def venture_flags (group : List Record) : List String :=
  let sg := tiered_sales_growth (salesSeries group)
  let pg := tiered_profit_growth (profitSeries group)
  let months_span := if 0 < group.length then (group.length : ℚ) else 1
  let annualised_new_subs := venture_new_subs group / months_span * 12
  (match sg with
   | .num v => if v < 0 then ["Negative Sales Growth"] else []
   | .insufficientData => []) ++
  (match pg with
   | .num v => if v < 0 then ["Negative Profit Growth"] else []
   | .insufficientData => []) ++
  (if 0 < venture_latest_subscribers group ∧ annualised_new_subs < 8000 then
    ["Low Learner Reach (<8,000/yr)"] else [])

/-- The Venture_Data card fields consumed by the verified claims
(lines 244-261).  The output key 'Latest Jobs' is the `latestJobs` field;
the source assigns it `net_jobs`. -/
structure VentureEntry where
  business : String
  cohort : String
  totalSales : ℚ
  salesGrowth : Growth
  profitGrowth : Growth
  /-- output key 'Latest Jobs' -/
  latestJobs : ℤ
  totalSubscribers : ℤ
  months : Nat
  redFlags : List String
  deriving DecidableEq, Repr

/-- One Venture_Data entry (lines 244-261). -/
def venture_entry (k : String × String) (group : List Record) : VentureEntry :=
  { business := k.2
    cohort := k.1
    totalSales := venture_total_sales group
    salesGrowth := tiered_sales_growth (salesSeries group)
    profitGrowth := tiered_profit_growth (profitSeries group)
    latestJobs := venture_net_jobs group
    totalSubscribers := pyInt (venture_latest_subscribers group)
    months := group.length
    redFlags := venture_flags group }

/-- The Venture_Data list. -/
def venture_data (df : List Record) : List VentureEntry :=
  (ventureKeys df).map fun k => venture_entry k (ventureGroup df k)

/-- Program grand total sales (lines 117, 144-145, 523). -/
def grand_total_sales (df : List Record) : ℚ :=
  ((ventureGroups df).map venture_total_sales).sum

/-- Jobs_Summary 'Total Jobs' (lines 185, 343): the `int` of the sum of
the per-venture latest total-jobs snapshots. -/
def jobs_summary_total_jobs (df : List Record) : ℤ :=
  pyInt (((ventureGroups df).map venture_current_total_jobs).sum)

/-! ### Time-series rows (logic_engine.py lines 213-223) -/

/-- One `all_time_series` row.  The `'%Y-%m'` month string is modelled by
the (year, month) pair itself (the formatting is injective on the years a
4-digit label can produce). -/
structure TSEntry where
  cohort : String
  business : String
  month : Date
  sales : ℚ
  profit : ℚ
  jobs : ℚ
  deriving DecidableEq, Repr

/-- The `all_time_series` rows contributed by one venture: one row per
date-sorted record whose 'Date' is not the `datetime.min` sentinel
(lines 213-223). -/
def venture_ts (group : List Record) : List TSEntry :=
  (sortByDate group).filterMap fun r =>
    match dateKey r with
    | none => none
    | some d => some ⟨r.cohort, r.business, d, r.sales, r.profit, r.totalJobs⟩

/-- The row a non-sentinel record contributes to `all_time_series`. -/
def mkTS (r : Record) : TSEntry :=
  ⟨r.cohort, r.business, (dateKey r).getD (0, 0), r.sales, r.profit, r.totalJobs⟩

/-- `all_time_series` (lines 135, 213-223), feeding both the cohort-level
and the program-level month groupings (lines 365-396). -/
def all_time_series (df : List Record) : List TSEntry :=
  ((ventureGroups df).map venture_ts).flatten

/-! ### Cohort-level computations (logic_engine.py lines 267-316) and the
cohort-detail date filter (line 402) -/

/-- The distinct cohort names of `df.groupby('Cohort')`. -/
def cohortKeys (df : List Record) : List String :=
  (df.map (·.cohort)).dedup

/-- `cohort_group`: the rows of one cohort, in arrival order. -/
def cohortGroup (df : List Record) (c : String) : List Record :=
  df.filter fun r => r.cohort = c

/-- The distinct business names inside one cohort. -/
def cohortBusinesses (df : List Record) (c : String) : List String :=
  ((cohortGroup df c).map (·.business)).dedup

/-- The venture groups of one cohort, rows in arrival order
(`cohort_group.groupby('Business Name')`). -/
def cohortVentures (df : List Record) (c : String) : List (List Record) :=
  (cohortBusinesses df c).map fun b =>
    (cohortGroup df c).filter fun r => r.business = b

/-- `float(cohort_group['Monthly Sales (R)'].sum())` (line 273): sums
every record of the cohort, sentinel-dated ones included. -/
def cohort_sales (df : List Record) (c : String) : ℚ :=
  ((cohortGroup df c).map (·.sales)).sum

/-- `float(cohort_group['Monthly Net Profit'].sum())` (line 274). -/
def cohort_profit (df : List Record) (c : String) : ℚ :=
  ((cohortGroup df c).map (·.profit)).sum

/-- Cohort-summary 'Total Jobs' (line 275):
`cohort_group.groupby('Business Name').last()['Total Jobs'].sum()`.
NOTE: `.last()` takes each venture's last row in DataFrame (arrival)
order; `cohort_group` is never sorted by 'Date' here. -/
def cohort_total_jobs (df : List Record) (c : String) : ℚ :=
  ((cohortVentures df c).map fun v => ((v.getLast?.map (·.totalJobs)).getD 0)).sum

/-- Cohort-summary 'Total Learners' (lines 277-282): students plus
teachers of each venture's `.last()` (arrival-order) row. -/
def cohort_total_learners (df : List Record) (c : String) : ℚ :=
  ((cohortVentures df c).map fun v => ((v.getLast?.map (·.subsStudents)).getD 0)).sum +
  ((cohortVentures df c).map fun v => ((v.getLast?.map (·.subsTeachers)).getD 0)).sum

/-- The spec's reading of cohort 'Total Jobs' (spec §4.4): sum of each
venture's latest *last-by-date* total-jobs value. -/
def cohort_total_jobs_byDate (df : List Record) (c : String) : ℚ :=
  ((cohortVentures df c).map venture_current_total_jobs).sum

/-- The spec's reading of cohort 'Total Learners' (spec §4.4): sum of
each venture's latest *last-by-date* student+teacher snapshot. -/
def cohort_total_learners_byDate (df : List Record) (c : String) : ℚ :=
  ((cohortVentures df c).map venture_latest_subscribers).sum

/-- The `isinstance(sg, (int, float))` test (lines 292-295): the numeric
value of a growth result, if it has one. -/
def growthValue : Growth → Option ℚ
  | .num q => some q
  | .insufficientData => none

/-- The numeric per-venture sales-growth values of one cohort
(lines 285-293): `"Insufficient Data"` results are dropped. -/
def cohort_numeric_sg (df : List Record) (c : String) : List ℚ :=
  (cohortVentures df c).filterMap fun v => growthValue (tiered_sales_growth (salesSeries v))

/-- The numeric per-venture profit-growth values of one cohort
(lines 286-295). -/
def cohort_numeric_pg (df : List Record) (c : String) : List ℚ :=
  (cohortVentures df c).filterMap fun v => growthValue (tiered_profit_growth (profitSeries v))

/-- `round(median(cohort_sg), 1) if cohort_sg else "Insufficient Data"`
(line 298). -/
def cohort_median_sg (df : List Record) (c : String) : Growth :=
  if cohort_numeric_sg df c = [] then .insufficientData
  else .num (round1 (pyMedian (cohort_numeric_sg df c)))

/-- `round(median(cohort_pg), 1) if cohort_pg else "Insufficient Data"`
(line 299). -/
def cohort_median_pg (df : List Record) (c : String) : Growth :=
  if cohort_numeric_pg df c = [] then .insufficientData
  else .num (round1 (pyMedian (cohort_numeric_pg df c)))

/-- Cohort exposure `avg_months` (line 300): the mean of the per-venture
record counts, 0 for an empty venture list. -/
def cohort_exposure (df : List Record) (c : String) : ℚ :=
  let ms : List Nat := (cohortVentures df c).map (·.length)
  if ms.length = 0 then 0 else (ms.sum : ℚ) / (ms.length : ℚ)

/-- `cohort_df[cohort_df['Date'] != datetime.min]` (line 402): the
cohort-detail record set feeding every month-keyed chart of the
cohort-detail bundle. -/
def cohort_valid (df : List Record) (c : String) : List Record :=
  (cohortGroup df c).filter fun r => (dateKey r).isSome

/-! ### Program TWA (logic_engine.py lines 318-325) -/

/-- `twa_num` (lines 319-323): Σ cohort-median-sales-growth × exposure
over the cohorts whose median is numeric. -/
def twa_numerator (df : List Record) : ℚ :=
  ((cohortKeys df).filterMap fun c =>
    match cohort_median_sg df c with
    | .num q => some (q * cohort_exposure df c)
    | .insufficientData => none).sum

/-- `twa_den` (lines 320-324): Σ exposure over the same cohorts. -/
def twa_denominator (df : List Record) : ℚ :=
  ((cohortKeys df).filterMap fun c =>
    match cohort_median_sg df c with
    | .num _ => some (cohort_exposure df c)
    | .insufficientData => none).sum

/-- `program_twa` (line 325). -/
def program_twa (df : List Record) : Growth :=
  if 0 < twa_denominator df then
    .num (round1 (twa_numerator df / twa_denominator df))
  else .insufficientData

/-! ### Concrete inputs used by witnesses and counterexamples -/

/-- Record builder for concrete inputs: cohort, business, label, then
sales, profit, total jobs, total subscriber students/teachers, new
subscriber students/teachers. -/
def mkRec (c b label : String) (sales profit jobs subsS subsT newS newT : ℚ) : Record :=
  ⟨c, b, label, sales, profit, jobs, subsS, subsT, newS, newT⟩

/-- A six-month venture with constant sales `x` for the first three
months and `y` for the last three: its sales growth is
`round1 ((y - x) / x * 100)` when `x ≠ 0`. -/
def sixMonths (c b : String) (x y : ℚ) : List Record :=
  [mkRec c b "January 2023" x 0 0 0 0 0 0,
   mkRec c b "February 2023" x 0 0 0 0 0 0,
   mkRec c b "March 2023" x 0 0 0 0 0 0,
   mkRec c b "April 2023" y 0 0 0 0 0 0,
   mkRec c b "May 2023" y 0 0 0 0 0 0,
   mkRec c b "June 2023" y 0 0 0 0 0 0]

/-- A twelve-month venture with constant sales `x` for the first six
months and `y` for the last six. -/
def twelveMonths (c b : String) (x y : ℚ) : List Record :=
  sixMonths c b x x ++
  [mkRec c b "July 2023" y 0 0 0 0 0 0,
   mkRec c b "August 2023" y 0 0 0 0 0 0,
   mkRec c b "September 2023" y 0 0 0 0 0 0,
   mkRec c b "October 2023" y 0 0 0 0 0 0,
   mkRec c b "November 2023" y 0 0 0 0 0 0,
   mkRec c b "December 2023" y 0 0 0 0 0 0]

/-- C3 counterexample input: one cohort with two ventures whose sales
growths are 10.1 and 10.2; the cohort median 10.15 is reported rounded. -/
def dfC3 : List Record := sixMonths "A" "b1" 1000 1101 ++ sixMonths "A" "b2" 1000 1102

/-- C4 counterexample input: cohort A has median growth 10.0 with
exposure 6, cohort B median 10.1 with exposure 12; the raw TWA 151/15 is
reported rounded to 10.1. -/
def dfC4 : List Record := sixMonths "A" "b1" 1000 1100 ++ twelveMonths "B" "b2" 1000 1101

/-- The spec's worked TWA example: cohort A median 10.0 exposure 6,
cohort B median 20.0 exposure (6+1+1+1+1)/5 = 2; TWA = 12.5. -/
def dfC4ex : List Record :=
  sixMonths "A" "b1" 1000 1100 ++ sixMonths "B" "b2" 1000 1200 ++
  [mkRec "B" "b3" "January 2023" 5 0 0 0 0 0 0,
   mkRec "B" "b4" "January 2023" 5 0 0 0 0 0 0,
   mkRec "B" "b5" "January 2023" 5 0 0 0 0 0 0,
   mkRec "B" "b6" "January 2023" 5 0 0 0 0 0 0]

/-- C5 failing input: one venture whose two records arrive in reverse
chronological order (February first, January second). -/
def dfC5 : List Record :=
  [mkRec "A" "b" "February 2023" 0 0 10 50 0 0 0,
   mkRec "A" "b" "January 2023" 0 0 4 7 0 0 0]

/-- C6 witness input: a single-record venture with 100 current
subscribers and an annualized new-subscriber rate of 120 < 8000. -/
def grpC6 : List Record := [mkRec "A" "b" "January 2023" 0 0 0 100 0 10 0]

/-- C7/C10 input: two records arriving in date order, total jobs 4 then
10: net jobs 6, latest snapshot 10. -/
def dfC10 : List Record :=
  [mkRec "A" "b" "January 2023" 0 0 4 0 0 0 0,
   mkRec "A" "b" "February 2023" 0 0 10 0 0 0 0]

/-- C8 input: a sentinel-dated record (label 'Unknown') and a dated one,
same venture. -/
def rUnknown : Record := mkRec "A" "b" "Unknown" 7 1 0 0 0 0 0

/-- The parseable companion record of `dfC8`. -/
def rSept : Record := mkRec "A" "b" "Report 6 - September 2023" 5 2 3 0 0 0 0

/-- C8 input DataFrame. -/
def dfC8 : List Record := [rUnknown, rSept]

/-! ## Claim theorems -/

/-- C1: for both tiered growth variants, the window selection depends
only on n = the number of points: n < 6 gives the insufficient-data
marker; 6-11 compares means of the first and last 3; 12-17 of the first
and last 6; 18-23 compares the first-12 mean against the annualized
residual run-rate; n ≥ 24 compares the first and last 12. -/
theorem C1_tiered_window_selection (s : List ℚ) :
    (s.length < 6 →
      tiered_sales_growth s = .insufficientData ∧
      tiered_profit_growth s = .insufficientData) ∧
    (6 ≤ s.length → s.length ≤ 11 →
      growthWindow s = (mean (s.take 3), mean (lastN s 3))) ∧
    (12 ≤ s.length → s.length ≤ 17 →
      growthWindow s = (mean (s.take 6), mean (lastN s 6))) ∧
    (18 ≤ s.length → s.length ≤ 23 →
      growthWindow s = (mean (s.take 12), (s.drop 12).sum / ((s.length - 12 : Nat) : ℚ) * 12)) ∧
    (24 ≤ s.length →
      growthWindow s = (mean (s.take 12), mean (lastN s 12))) := by
  refine ⟨fun h => ⟨?_, ?_⟩, fun h1 h2 => ?_, fun h1 h2 => ?_, fun h1 h2 => ?_, fun h1 => ?_⟩
  · simp [tiered_sales_growth, h]
  · simp [tiered_profit_growth, h]
  · simp only [growthWindow]
    rw [if_pos h2]
  · simp only [growthWindow]
    rw [if_neg (by omega), if_pos h2]
  · simp only [growthWindow]
    rw [if_neg (by omega), if_neg (by omega), if_pos h2, if_pos (by omega)]
  · simp only [growthWindow]
    rw [if_neg (by omega), if_neg (by omega), if_neg (by omega)]

theorem C1_witness :
    tiered_sales_growth [1,2,3] = .insufficientData ∧
    growthWindow [1,1,1,2,2,2] = (mean ([1,1,1,2,2,2].take 3), mean (lastN [1,1,1,2,2,2] 3)) ∧
    growthWindow (List.replicate 12 (1:ℚ)) =
      (mean ((List.replicate 12 (1:ℚ)).take 6), mean (lastN (List.replicate 12 (1:ℚ)) 6)) ∧
    growthWindow (List.replicate 18 (1:ℚ)) =
      (mean ((List.replicate 18 (1:ℚ)).take 12),
       ((List.replicate 18 (1:ℚ)).drop 12).sum / (((List.replicate 18 (1:ℚ)).length - 12 : Nat) : ℚ) * 12) ∧
    growthWindow (List.replicate 24 (1:ℚ)) =
      (mean ((List.replicate 24 (1:ℚ)).take 12), mean (lastN (List.replicate 24 (1:ℚ)) 12)) :=
  ⟨((C1_tiered_window_selection [1,2,3]).1 (by decide)).1,
   (C1_tiered_window_selection [1,1,1,2,2,2]).2.1 (by decide) (by decide),
   (C1_tiered_window_selection _).2.2.1 (by decide) (by decide),
   (C1_tiered_window_selection _).2.2.2.1 (by decide) (by decide),
   (C1_tiered_window_selection _).2.2.2.2 (by decide)⟩

/-- C2: for n ≥ 6 the sales-style result is 0.0 on a zero baseline and
otherwise the rounded relative change; the profit-style result divides by
the absolute baseline; a profit series with first-12 mean −100 and
last-12 mean −50 yields 50.0. -/
theorem C2_growth_formulas (s : List ℚ) (h : 6 ≤ s.length) :
    ((growthWindow s).1 = 0 → tiered_sales_growth s = .num 0) ∧
    ((growthWindow s).1 ≠ 0 →
      tiered_sales_growth s =
        .num (round1 (((growthWindow s).2 - (growthWindow s).1) / (growthWindow s).1 * 100))) ∧
    (|(growthWindow s).1| = 0 → tiered_profit_growth s = .num 0) ∧
    (|(growthWindow s).1| ≠ 0 →
      tiered_profit_growth s =
        .num (round1 (((growthWindow s).2 - (growthWindow s).1) / |(growthWindow s).1| * 100))) ∧
    tiered_profit_growth (List.replicate 12 (-100) ++ List.replicate 12 (-50)) = .num 50 := by
  have h6 : ¬ s.length < 6 := by omega
  refine ⟨fun hz => ?_, fun hz => ?_, fun hz => ?_, fun hz => ?_, ?_⟩
  · simp [tiered_sales_growth, h6, hz]
  · simp [tiered_sales_growth, h6, hz]
  · simp [tiered_profit_growth, h6, hz]
  · simp [tiered_profit_growth, h6, hz]
  · with_unfolding_all rfl

theorem C2_witness :
    tiered_sales_growth [0,0,0,2,2,2] = .num 0 ∧
    tiered_sales_growth [1,1,1,2,2,2] = .num 100 := by
  constructor
  · exact (C2_growth_formulas [0,0,0,2,2,2] (by decide)).1 (by with_unfolding_all decide)
  · have h := (C2_growth_formulas [1,1,1,2,2,2] (by decide)).2.1 (by with_unfolding_all decide)
    rw [h]
    with_unfolding_all rfl



/-! ### Shared helper lemmas -/

/-- A growth result filters to `none` exactly when it is the
insufficient-data marker. -/
theorem growthValue_eq_none (g : Growth) :
    growthValue g = none ↔ g = .insufficientData := by
  cases g <;> simp [growthValue]

/-- Every cohort name of the DataFrame has a strictly positive exposure:
its venture list is nonempty and every venture has at least one record. -/
theorem cohort_exposure_pos (df : List Record) (c : String) (h : c ∈ cohortKeys df) :
    0 < cohort_exposure df c := by
  rw [cohortKeys, List.mem_dedup, List.mem_map] at h
  obtain ⟨r, hr, hrc⟩ := h
  have hrg : r ∈ cohortGroup df c := by
    simp [cohortGroup, List.mem_filter, hr, hrc]
  have hb : r.business ∈ cohortBusinesses df c := by
    rw [cohortBusinesses, List.mem_dedup, List.mem_map]
    exact ⟨r, hrg, rfl⟩
  have hv : ∀ v ∈ cohortVentures df c, 0 < v.length := by
    intro v hvm
    rw [cohortVentures, List.mem_map] at hvm
    obtain ⟨b, hbmem, rfl⟩ := hvm
    rw [cohortBusinesses, List.mem_dedup, List.mem_map] at hbmem
    obtain ⟨r2, hr2, hr2b⟩ := hbmem
    have hmem : r2 ∈ (cohortGroup df c).filter (fun x => x.business = b) := by
      simp [List.mem_filter, hr2, hr2b]
    exact List.length_pos.mpr (List.ne_nil_of_mem hmem)
  rw [cohort_exposure]
  set ms := (cohortVentures df c).map (·.length) with hms
  have hmsne : ms ≠ [] := by
    rw [hms]
    simp only [ne_eq, List.map_eq_nil_iff]
    intro hnil
    have : r.business ∈ cohortBusinesses df c := hb
    rw [cohortVentures] at hnil
    rw [List.map_eq_nil_iff] at hnil
    rw [hnil] at this
    exact List.not_mem_nil _ this
  have hlen : ms.length ≠ 0 := by
    intro h0
    exact hmsne (List.length_eq_zero.mp h0)
  have hsum : 0 < ms.sum := by
    apply List.sum_pos
    · intro x hx
      rw [hms, List.mem_map] at hx
      obtain ⟨v, hvm, rfl⟩ := hx
      exact hv v hvm
    · exact hmsne
  rw [if_neg hlen]
  apply div_pos
  · exact_mod_cast hsum
  · exact_mod_cast Nat.pos_of_ne_zero hlen

/-! ### C3 -/

/-- C3 (amended): the reported cohort median sales (and profit) growth is
the 1-decimal rounding of the median over only the numeric per-venture
growth values; when no venture has a numeric value the cohort growth is
the insufficient-data marker, never 0. -/
theorem C3_cohort_median_amended (df : List Record) (c : String) :
    (cohort_numeric_sg df c ≠ [] →
      cohort_median_sg df c = .num (round1 (pyMedian (cohort_numeric_sg df c)))) ∧
    (cohort_numeric_sg df c = [] → cohort_median_sg df c = .insufficientData) ∧
    (cohort_numeric_sg df c = [] ↔
      ∀ v ∈ cohortVentures df c, tiered_sales_growth (salesSeries v) = .insufficientData) ∧
    (cohort_numeric_pg df c ≠ [] →
      cohort_median_pg df c = .num (round1 (pyMedian (cohort_numeric_pg df c)))) ∧
    (cohort_numeric_pg df c = [] → cohort_median_pg df c = .insufficientData) ∧
    (cohort_numeric_pg df c = [] ↔
      ∀ v ∈ cohortVentures df c, tiered_profit_growth (profitSeries v) = .insufficientData) := by
  refine ⟨fun h => ?_, fun h => ?_, ?_, fun h => ?_, fun h => ?_, ?_⟩
  · simp [cohort_median_sg, h]
  · simp [cohort_median_sg, h]
  · rw [cohort_numeric_sg, List.filterMap_eq_nil_iff]
    constructor
    · intro h v hvm
      exact (growthValue_eq_none _).mp (h v hvm)
    · intro h v hvm
      exact (growthValue_eq_none _).mpr (h v hvm)
  · simp [cohort_median_pg, h]
  · simp [cohort_median_pg, h]
  · rw [cohort_numeric_pg, List.filterMap_eq_nil_iff]
    constructor
    · intro h v hvm
      exact (growthValue_eq_none _).mp (h v hvm)
    · intro h v hvm
      exact (growthValue_eq_none _).mpr (h v hvm)

/-- C3 counterexample: a cohort with per-venture growths 10.1 and 10.2
reports 10.2, the rounding of the median 10.15 — not the median itself. -/
theorem C3_counterexample :
    cohort_median_sg dfC3 "A" = .num (51/5) ∧
    pyMedian (cohort_numeric_sg dfC3 "A") = 203/20 ∧
    cohort_median_sg dfC3 "A" ≠ .num (pyMedian (cohort_numeric_sg dfC3 "A")) := by
  refine ⟨?_, ?_, ?_⟩ <;> with_unfolding_all decide

theorem C3_witness :
    cohort_median_sg dfC3 "A" = .num (round1 (pyMedian (cohort_numeric_sg dfC3 "A"))) :=
  (C3_cohort_median_amended dfC3 "A").1 (by with_unfolding_all decide)

/-! ### C4 -/

/-- C4 (amended): the program TWA is the 1-decimal rounding of
Σ(cohort median sales growth × exposure) ÷ Σ(exposure) over the cohorts
with numeric median growth, and the insufficient-data marker when no
cohort qualifies; on the spec's worked example it is 12.5. -/
theorem C4_twa_amended (df : List Record) :
    ((∀ c ∈ cohortKeys df, cohort_median_sg df c = .insufficientData) →
      program_twa df = .insufficientData) ∧
    ((∃ c ∈ cohortKeys df, cohort_median_sg df c ≠ .insufficientData) →
      0 < twa_denominator df ∧
      program_twa df = .num (round1 (twa_numerator df / twa_denominator df))) ∧
    program_twa dfC4ex = .num (25/2) := by
  refine ⟨fun h => ?_, fun h => ?_, ?_⟩
  · have hden : twa_denominator df = 0 := by
      rw [twa_denominator]
      have hnil : ((cohortKeys df).filterMap fun c =>
          match cohort_median_sg df c with
          | .num _ => some (cohort_exposure df c)
          | .insufficientData => none) = [] := by
        rw [List.filterMap_eq_nil_iff]
        intro c hc
        rw [h c hc]
      rw [hnil]
      rfl
    rw [program_twa, hden]
    norm_num
  · obtain ⟨c0, hc0, hne⟩ := h
    have hpos : 0 < twa_denominator df := by
      rw [twa_denominator]
      apply List.sum_pos
      · intro a ha
        rw [List.mem_filterMap] at ha
        obtain ⟨c, hc, hfc⟩ := ha
        cases hg : cohort_median_sg df c with
        | num q =>
          rw [hg] at hfc
          simp only [Option.some.injEq] at hfc
          rw [← hfc]
          exact cohort_exposure_pos df c hc
        | insufficientData =>
          rw [hg] at hfc
          simp at hfc
      · apply List.ne_nil_of_mem (a := cohort_exposure df c0)
        rw [List.mem_filterMap]
        cases hg : cohort_median_sg df c0 with
        | num q => exact ⟨c0, hc0, by rw [hg]⟩
        | insufficientData => exact absurd hg hne
    exact ⟨hpos, by rw [program_twa, if_pos hpos]⟩
  · with_unfolding_all decide

/-- C4 counterexample: cohorts with medians 10.0 (exposure 6) and 10.1
(exposure 12) report a TWA of 10.1, the rounding of the raw weighted
average 151/15 — not the raw quotient itself. -/
theorem C4_counterexample :
    program_twa dfC4 = .num (101/10) ∧
    twa_numerator dfC4 / twa_denominator dfC4 = 151/15 ∧
    program_twa dfC4 ≠ .num (twa_numerator dfC4 / twa_denominator dfC4) := by
  refine ⟨?_, ?_, ?_⟩ <;> with_unfolding_all decide

theorem C4_witness :
    0 < twa_denominator dfC4ex ∧
    program_twa dfC4ex = .num (round1 (twa_numerator dfC4ex / twa_denominator dfC4ex)) :=
  (C4_twa_amended dfC4ex).2.1 ⟨"A", by with_unfolding_all decide, by with_unfolding_all decide⟩



/-! ### C5 -/

/-- C5 (code behaviour at the failing input): with a venture's two
records arriving in reverse chronological order, the cohort summary sums
the venture's last *arrival-order* row (Total Jobs 4, learners 7),
whereas the claimed last-by-date reading gives 10 and 50. -/
theorem C5_cohort_last_row_behavior :
    cohort_total_jobs dfC5 "A" = 4 ∧
    cohort_total_jobs_byDate dfC5 "A" = 10 ∧
    cohort_total_learners dfC5 "A" = 7 ∧
    cohort_total_learners_byDate dfC5 "A" = 50 ∧
    cohort_total_jobs dfC5 "A" ≠ cohort_total_jobs_byDate dfC5 "A" ∧
    cohort_total_learners dfC5 "A" ≠ cohort_total_learners_byDate dfC5 "A" := by
  refine ⟨?_, ?_, ?_, ?_, ?_, ?_⟩ <;> with_unfolding_all decide

/-! ### C6 -/

/-- C6: the 'Low Learner Reach' red flag is raised iff the venture's
latest total subscriber count is positive and the annualized
new-subscriber rate (flow total ÷ record count × 12) is below 8000; with
a zero latest subscriber count it is never raised. -/
theorem C6_low_learner_reach (group : List Record) (h : 0 < group.length) :
    ("Low Learner Reach (<8,000/yr)" ∈ venture_flags group ↔
      (0 < venture_latest_subscribers group ∧
       venture_new_subs group / (group.length : ℚ) * 12 < 8000)) ∧
    (venture_latest_subscribers group = 0 →
      "Low Learner Reach (<8,000/yr)" ∉ venture_flags group) := by
  have hmain : ("Low Learner Reach (<8,000/yr)" ∈ venture_flags group ↔
      (0 < venture_latest_subscribers group ∧
       venture_new_subs group / (group.length : ℚ) * 12 < 8000)) := by
    simp only [venture_flags, h, if_true]
    cases hsg : tiered_sales_growth (salesSeries group) with
    | num v =>
      cases hpg : tiered_profit_growth (profitSeries group) with
      | num w =>
        by_cases hv : v < 0 <;> by_cases hw : w < 0 <;>
          simp [hv, hw, List.mem_append]
      | insufficientData =>
        by_cases hv : v < 0 <;> simp [hv, List.mem_append]
    | insufficientData =>
      cases hpg : tiered_profit_growth (profitSeries group) with
      | num w =>
        by_cases hw : w < 0 <;> simp [hw, List.mem_append]
      | insufficientData =>
        simp [List.mem_append]
  refine ⟨hmain, fun h0 => ?_⟩
  rw [hmain]
  rintro ⟨hpos, -⟩
  rw [h0] at hpos
  exact lt_irrefl 0 hpos

theorem C6_witness :
    "Low Learner Reach (<8,000/yr)" ∈ venture_flags grpC6 :=
  ((C6_low_learner_reach grpC6 (by decide)).1).mpr
    ⟨by with_unfolding_all decide, by with_unfolding_all decide⟩

/-! ### C7 -/

/-- C7: net jobs created is the truncated-to-integer difference of the
last-by-date and first-by-date total-jobs values when the venture has at
least 2 records, and 0 for exactly one record. -/
theorem C7_net_jobs_delta (group : List Record) :
    (2 ≤ group.length →
      venture_net_jobs group =
        pyInt ((((sortByDate group).getLast?.map (·.totalJobs)).getD 0) -
               (((sortByDate group).head?.map (·.totalJobs)).getD 0))) ∧
    (group.length = 1 → venture_net_jobs group = 0) := by
  have hlen : (sortByDate group).length = group.length :=
    List.length_insertionSort _ _
  constructor
  · intro h2
    simp only [venture_net_jobs]
    rw [if_pos (by rw [hlen]; exact h2)]
  · intro h1
    simp only [venture_net_jobs]
    rw [if_neg (by rw [hlen, h1]; omega)]

theorem C7_witness :
    venture_net_jobs dfC10 =
      pyInt ((((sortByDate dfC10).getLast?.map (·.totalJobs)).getD 0) -
             (((sortByDate dfC10).head?.map (·.totalJobs)).getD 0)) ∧
    venture_net_jobs dfC10 = 6 ∧
    venture_net_jobs [mkRec "A" "b" "January 2023" 0 0 4 0 0 0 0] = 0 := by
  refine ⟨(C7_net_jobs_delta dfC10).1 (by decide), ?_,
    (C7_net_jobs_delta [mkRec "A" "b" "January 2023" 0 0 4 0 0 0 0]).2 (by decide)⟩
  with_unfolding_all decide



/-! ### C8 -/

/-- A `filterMap` whose function returns `some (g a)` exactly on the
elements satisfying `p` is the map of `g` over the `p`-filter. -/
theorem filterMap_eq_map_filter {α β : Type} (f : α → Option β) (g : α → β)
    (p : α → Bool) (hf : ∀ a, f a = if p a then some (g a) else none) (l : List α) :
    l.filterMap f = (l.filter p).map g := by
  induction l with
  | nil => rfl
  | cons a l ih =>
    rw [List.filterMap_cons, List.filter_cons]
    by_cases hp : p a
    · rw [hf a, if_pos hp, if_pos hp, List.map_cons, ih]
    · rw [hf a, if_neg hp, if_neg hp, ih]

/-- Splitting a mapped sum along a Boolean predicate. -/
theorem sum_map_filter_partition {α : Type} (f : α → ℚ) (p : α → Bool) (l : List α) :
    (l.map f).sum =
      ((l.filter p).map f).sum + ((l.filter (fun a => !(p a))).map f).sum := by
  induction l with
  | nil => simp
  | cons a l ih =>
    by_cases hp : p a <;> simp [hp, ih] <;> ring

/-- C8: a record whose reporting-period label parses to the sentinel
contributes no row to the month-keyed time series (`all_time_series`
rows, which feed the cohort and program month groupings, exist exactly
for the non-sentinel records; the cohort-detail `valid` frame drops it),
while the aggregate sums (venture total sales, cohort sales and profit)
still include it; unparsable labels parse to the sentinel rather than
raising. -/
theorem C8_sentinel_records (df group : List Record) (c : String) (r : Record)
    (hr : dateKey r = none) :
    venture_ts group =
      ((sortByDate group).filter (fun x => (dateKey x).isSome)).map mkTS ∧
    r ∉ cohort_valid df c ∧
    venture_total_sales group =
      ((group.filter (fun x => (dateKey x).isSome)).map (·.sales)).sum +
      ((group.filter (fun x => !(dateKey x).isSome)).map (·.sales)).sum ∧
    cohort_sales df c =
      (((cohortGroup df c).filter (fun x => (dateKey x).isSome)).map (·.sales)).sum +
      (((cohortGroup df c).filter (fun x => !(dateKey x).isSome)).map (·.sales)).sum ∧
    cohort_profit df c =
      (((cohortGroup df c).filter (fun x => (dateKey x).isSome)).map (·.profit)).sum +
      (((cohortGroup df c).filter (fun x => !(dateKey x).isSome)).map (·.profit)).sum ∧
    parse_reporting_month "Unknown" = none ∧
    parse_reporting_month "Report 7 - NotAMonth 2024" = none ∧
    parse_reporting_month "Report 6 - September 2023" = some (2023, 9) := by
  refine ⟨?_, ?_, ?_, ?_, ?_, by with_unfolding_all rfl, by with_unfolding_all rfl,
    by with_unfolding_all rfl⟩
  · rw [venture_ts]
    apply filterMap_eq_map_filter
    intro a
    cases hd : dateKey a with
    | none => simp [hd]
    | some d => simp [mkTS, hd]
  · rw [cohort_valid]
    intro hmem
    rw [List.mem_filter] at hmem
    rw [hr] at hmem
    simp at hmem
  · rw [venture_total_sales]
    exact sum_map_filter_partition _ _ _
  · rw [cohort_sales]
    exact sum_map_filter_partition _ _ _
  · rw [cohort_profit]
    exact sum_map_filter_partition _ _ _

theorem C8_witness :
    rUnknown ∉ cohort_valid dfC8 "A" ∧
    venture_ts dfC8 =
      ((sortByDate dfC8).filter (fun x => (dateKey x).isSome)).map mkTS :=
  ⟨(C8_sentinel_records dfC8 dfC8 "A" rUnknown (by with_unfolding_all rfl)).2.1,
   (C8_sentinel_records dfC8 dfC8 "A" rUnknown (by with_unfolding_all rfl)).1⟩

/-! ### C10 -/

/-- C10: every Venture_Data entry's 'Latest Jobs' field holds the
net-jobs delta (`net_jobs`), not the venture's latest total-jobs
snapshot; the snapshot is folded into the program-level Jobs_Summary
'Total Jobs' figure; on a venture with jobs 4 then 10 the two differ
(6 versus 10). -/
theorem C10_latest_jobs_is_delta (df : List Record) :
    (∀ e ∈ venture_data df, ∃ k ∈ ventureKeys df,
        e = venture_entry k (ventureGroup df k) ∧
        e.latestJobs = venture_net_jobs (ventureGroup df k)) ∧
    jobs_summary_total_jobs df =
      pyInt (((ventureGroups df).map venture_current_total_jobs).sum) ∧
    (venture_entry ("A", "b") dfC10).latestJobs = 6 ∧
    pyInt (venture_current_total_jobs dfC10) = 10 ∧
    (6 : ℤ) ≠ 10 := by
  refine ⟨?_, rfl, ?_, ?_, by decide⟩
  · intro e he
    rw [venture_data, List.mem_map] at he
    obtain ⟨k, hk, rfl⟩ := he
    exact ⟨k, hk, rfl, rfl⟩
  · with_unfolding_all decide
  · with_unfolding_all decide

theorem C10_witness :
    ∃ k ∈ ventureKeys dfC10,
      venture_entry ("A", "b") (ventureGroup dfC10 ("A", "b")) =
        venture_entry k (ventureGroup dfC10 k) ∧
      (venture_entry ("A", "b") (ventureGroup dfC10 ("A", "b"))).latestJobs =
        venture_net_jobs (ventureGroup dfC10 k) :=
  (C10_latest_jobs_is_delta dfC10).1
    (venture_entry ("A", "b") (ventureGroup dfC10 ("A", "b")))
    (by with_unfolding_all decide)


end Injini
